import Mathlib

/-!
Shallow embedding of `crates/volta-core/src/log.rs`: the custom `Logger`
for the `log` facade used by the volta CLI.

External collaborators are made explicit parameters:
* `env::var(VOLTA_LOGLEVEL)` is an `Option String` argument (`none` = unset);
* `atty::is(Stream::Stdout)` is a `Bool` argument;
* `crate::style::text_width()` is an `Option Nat` argument (`none` when
  stdout is not a terminal, per the spec of the width helper);
* `console::style(..).red().bold()` / `.yellow().bold()` are opaque string
  transformers collected in a `Style` record.
-/

namespace VoltaLog

/-- Severity of a log record, from the `log` crate: `Error = 1` is the most
severe, `Trace = 5` the least (the crate orders levels by their `usize`
value, smaller = more severe). -/
inductive Level where
  | Error
  | Warn
  | Info
  | Debug
  | Trace
deriving DecidableEq, Repr

/-- `LevelFilter` from the `log` crate: `Off = 0` through `Trace = 5`. -/
inductive LevelFilter where
  | Off
  | Error
  | Warn
  | Info
  | Debug
  | Trace
deriving DecidableEq, Repr

/-- The `usize` value of a `Level` in the `log` crate. -/
def Level.toNat : Level → Nat
  | .Error => 1
  | .Warn => 2
  | .Info => 3
  | .Debug => 4
  | .Trace => 5

/-- The `usize` value of a `LevelFilter` in the `log` crate. -/
def LevelFilter.toNat : LevelFilter → Nat
  | .Off => 0
  | .Error => 1
  | .Warn => 2
  | .Info => 3
  | .Debug => 4
  | .Trace => 5

/-- Constant ERROR_PREFIX from log.rs (renamed here). -/
def ERROR_LABEL : String := "error:"

/-- Constant WARNING_PREFIX from log.rs (renamed here). -/
def WARNING_LABEL : String := "warning:"

/-- Constant SHIM_ERROR_PREFIX from log.rs (renamed here). -/
def SHIM_ERROR_LABEL : String := "Volta error:"

/-- Constant SHIM_WARNING_PREFIX from log.rs (renamed here). -/
def SHIM_WARNING_LABEL : String := "Volta warning:"

/-- Constant ALLOWED_PREFIX from log.rs (renamed here): the reserved
namespace that a record's target must start with. -/
def ALLOWED_NS : String := "volta"

/-- Constant WRAP_INDENT from log.rs: indent of wrapped continuation lines. -/
def WRAP_INDENT : String := "    "

/-- `LogContext` from log.rs: the context from which the logger was created. -/
inductive LogContext where
  | Volta
  | Shim
deriving DecidableEq, Repr

/-- `LogVerbosity` from log.rs: the level of verbosity requested by the user. -/
inductive LogVerbosity where
  | Quiet
  | Default
  | Verbose
deriving DecidableEq, Repr

/-- The `Logger` struct from log.rs. -/
structure Logger where
  context : LogContext
  level : LevelFilter
deriving DecidableEq, Repr

/-- The two output streams a rendered line can be written to. -/
inductive OutStream where
  | stdout
  | stderr
deriving DecidableEq, Repr

/-- The styling collaborator (`console::style`): how the red/bold and
yellow/bold transformations render a string. Opaque to this module. -/
structure Style where
  red_bold : String → String
  yellow_bold : String → String

/-- Rust `str::starts_with` on string slices, modelled on the character
lists underlying the strings. -/
def strStartsWith (s pat : String) : Bool :=
  List.isPrefixOf pat.data s.data

/-- One pass of Rust `str::replace(from, to)`: scan left to right, replace
each non-overlapping occurrence of `pat`. `fuel` bounds the recursion; the
caller passes the length of the scanned list, which suffices because every
step consumes at least one element. (Rust's behaviour for an empty `from`
pattern is not modelled; the module only ever passes non-empty prefixes.) -/
def replaceAux : Nat → List Char → List Char → List Char → List Char
  | 0, _, _, l => l
  | _, _, _, [] => []
  | fuel + 1, pat, repl, c :: cs =>
    if List.isPrefixOf pat (c :: cs) && !pat.isEmpty then
      repl ++ replaceAux fuel pat repl (List.drop (pat.length - 1) cs)
    else
      c :: replaceAux fuel pat repl cs

/-- Rust `String::replace(pat, repl)` (global, non-overlapping, left to
right), as used by `wrap_content`. -/
def rustReplace (s pat repl : String) : String :=
  String.mk (replaceAux s.data.length pat.data repl.data s.data)

/-- Split a character list into whitespace-separated words, as the textwrap
collaborator does before filling. -/
def splitWords : List Char → List Char → List String
  | [], acc => if acc.isEmpty then [] else [String.mk acc.reverse]
  | c :: cs, acc =>
    if c.isWhitespace then
      if acc.isEmpty then splitWords cs []
      else String.mk acc.reverse :: splitWords cs []
    else
      splitWords cs (c :: acc)

/-- Greedy line layout of the textwrap collaborator (`Wrapper` with
`NoHyphenation` and `break_words(false)`): keep adding words (separated by
one space) while the line stays within `width`; otherwise start a new line
with the subsequent indent. A word too long for a line of its own is left
whole (no mid-word breaking, no hyphenation), overflowing the width. -/
def greedyLines (width : Nat) (indent : String) : List String → String → List String
  | [], line => [line]
  | w :: ws, line =>
    if line.length + 1 + w.length ≤ width then
      greedyLines width indent ws (line ++ " " ++ w)
    else
      line :: greedyLines width indent ws (indent ++ w)

/-- Join lines with a newline character. -/
def joinLines : List String → String
  | [] => ""
  | [l] => l
  | l :: ls => l ++ "\n" ++ joinLines ls

/-- `Wrapper::with_splitter(width, NoHyphenation).subsequent_indent(indent)
.break_words(false).fill(text)` of the textwrap collaborator used by
`wrap_content`: greedy word-wrap of `text` to `width`, continuation lines
indented by `indent`, joined by newlines. -/
def fill (width : Nat) (indent : String) (text : String) : String :=
  match splitWords text.data [] with
  | [] => ""
  | w :: ws => joinLines (greedyLines width indent ws w)

/-- `wrap_content` from log.rs. `widthOpt` is the result of the
`text_width()` collaborator: `some width` inside a terminal, `none`
otherwise. In a terminal the prefixed content is filled to the width and
then the prefix is stripped back out with a global `String::replace`;
outside a terminal the content is returned with a single leading space. -/
def wrap_content (widthOpt : Option Nat) (pfx : String) (content : String) : String :=
  match widthOpt with
  | some width =>
      rustReplace (fill width WRAP_INDENT (pfx ++ " " ++ content)) pfx ""
  | none => " " ++ content

/-- `Logger::enabled` from log.rs: `metadata.level() <= self.level`, where
the `log` crate compares a `Level` and a `LevelFilter` by `usize` value. -/
def Logger.enabled (lg : Logger) (lvl : Level) : Bool :=
  Level.toNat lvl ≤ LevelFilter.toNat lg.level

/-- `Logger::log_error` from log.rs: the line written to stderr, without
the trailing newline that `eprintln!` appends. -/
def Logger.log_error (lg : Logger) (st : Style) (message : String) : String :=
  let pfx := match lg.context with
    | LogContext.Volta => ERROR_LABEL
    | LogContext.Shim => SHIM_ERROR_LABEL
  st.red_bold pfx ++ " " ++ message

/-- `Logger::log_warning` from log.rs: the line written to stdout, without
the trailing newline that `println!` appends. The unstyled label is passed
to `wrap_content` and the styled label is prepended to its result. -/
def Logger.log_warning (lg : Logger) (st : Style) (widthOpt : Option Nat)
    (message : String) : String :=
  let pfx := match lg.context with
    | LogContext.Volta => WARNING_LABEL
    | LogContext.Shim => SHIM_WARNING_LABEL
  st.yellow_bold pfx ++ wrap_content widthOpt pfx message

/-- `Logger::log` from log.rs: `some (stream, line)` when the record is
rendered, `none` when it is dropped. The record is rendered exactly when
`enabled` holds of its level and its target starts with ALLOWED_PREFIX;
the rendering then dispatches on the level as in the source. -/
def Logger.log (lg : Logger) (st : Style) (widthOpt : Option Nat)
    (lvl : Level) (target message : String) : Option (OutStream × String) :=
  if lg.enabled lvl && strStartsWith target ALLOWED_NS then
    some (match lvl with
      | Level.Error => (OutStream.stderr, lg.log_error st message)
      | Level.Warn => (OutStream.stdout, lg.log_warning st widthOpt message)
      | Level.Debug => (OutStream.stdout, "[verbose] " ++ message)
      | _ => (OutStream.stdout, message))
  else
    none

/-- `level_from_env` from log.rs: the guards on `env::var(VOLTA_LOGLEVEL)`
in source order, falling through to the TTY check. `envVar` is the value of
the environment variable (`none` when unset), `tty` is
`atty::is(Stream::Stdout)`. -/
def level_from_env (envVar : Option String) (tty : Bool) : LevelFilter :=
  match envVar with
  | some l =>
    if l = "off" then LevelFilter.Off
    else if l = "error" then LevelFilter.Error
    else if l = "warn" then LevelFilter.Warn
    else if l = "info" then LevelFilter.Info
    else if l = "debug" then LevelFilter.Debug
    else if l = "trace" then LevelFilter.Trace
    else if tty then LevelFilter.Info else LevelFilter.Error
  | none => if tty then LevelFilter.Info else LevelFilter.Error

/-- `Logger::new` from log.rs. -/
def Logger.new (context : LogContext) (verbosity : LogVerbosity)
    (envVar : Option String) (tty : Bool) : Logger :=
  Logger.mk context
    (match verbosity with
      | LogVerbosity.Quiet => LevelFilter.Error
      | LogVerbosity.Default => level_from_env envVar tty
      | LogVerbosity.Verbose => LevelFilter.Debug)

/-- `SetLoggerError` from the `log` crate: returned by `set_boxed_logger`
when a global logger was already installed. -/
inductive SetLoggerError where
  | alreadySet
deriving DecidableEq, Repr

/-- The global state of the `log` crate that log.rs mutates: the
process-wide maximum enabled level and the installed sink. -/
structure GlobalLogState where
  maxLevel : LevelFilter
  sink : Option Logger
deriving DecidableEq, Repr

/-- `log::set_max_level`: always succeeds, overwrites the process-wide
maximum enabled level. -/
def set_max_level (l : LevelFilter) (s : GlobalLogState) : GlobalLogState :=
  GlobalLogState.mk l s.sink

/-- `log::set_boxed_logger`: installs the sink, or fails with
`SetLoggerError` (leaving the state unchanged) when one is installed. -/
def set_boxed_logger (lg : Logger) (s : GlobalLogState) :
    Except SetLoggerError GlobalLogState :=
  match s.sink with
  | some _ => Except.error SetLoggerError.alreadySet
  | none => Except.ok (GlobalLogState.mk s.maxLevel (some lg))

/-- `Logger::init` from log.rs: builds the logger, sets the process-wide
maximum level, then tries to install the sink, propagating
`SetLoggerError`. Note the source calls `set_max_level` before the fallible
`set_boxed_logger`. Returns the updated global state with the result. -/
def Logger.init (context : LogContext) (verbosity : LogVerbosity)
    (envVar : Option String) (tty : Bool) (s : GlobalLogState) :
    GlobalLogState × Except SetLoggerError Unit :=
  let logger := Logger.new context verbosity envVar tty
  let s1 := set_max_level logger.level s
  match set_boxed_logger logger s1 with
  | Except.ok s2 => (s2, Except.ok ())
  | Except.error e => (s1, Except.error e)

/-- A concrete styling used by witnesses: identity on both transformations. -/
def plainStyle : Style := Style.mk id id

/-- A 500-character message used by the warning-rendering witness. -/
def longMessage : String := String.mk (List.replicate 500 'x')

/-- Claim C1, counterexample: starting from a fresh process state, a first
`init` with Verbose (threshold Debug) succeeds; a second `init` with Quiet
then fails with a setup error, yet the process-wide maximum enabled level
after the failed call differs from the one the first call installed
(`set_max_level` runs before the fallible `set_boxed_logger`). This refutes
the claim that the effective threshold is not modified by the failed call. -/
theorem init_second_call_changes_max_level :
    ((Logger.init LogContext.Volta LogVerbosity.Quiet none true
        (Logger.init LogContext.Volta LogVerbosity.Verbose none true
          (GlobalLogState.mk LevelFilter.Off none)).1).2 =
      Except.error SetLoggerError.alreadySet) ∧
    ¬ ((Logger.init LogContext.Volta LogVerbosity.Quiet none true
        (Logger.init LogContext.Volta LogVerbosity.Verbose none true
          (GlobalLogState.mk LevelFilter.Off none)).1).1.maxLevel =
      (Logger.init LogContext.Volta LogVerbosity.Verbose none true
        (GlobalLogState.mk LevelFilter.Off none)).1.maxLevel) :=
  ⟨rfl, by decide⟩

/-- Claim C1, amended: a second `init` in the same process returns a setup
error and the first-installed sink remains installed unchanged, but the
process-wide maximum enabled level is overwritten with the second call's
resolved level before the failure is reported. -/
theorem init_second_call_error_sink_kept (ctx1 ctx2 : LogContext)
    (v1 v2 : LogVerbosity) (e1 e2 : Option String) (t1 t2 : Bool)
    (s0 : GlobalLogState) (h : s0.sink = none) :
    (Logger.init ctx1 v1 e1 t1 s0).2 = Except.ok () ∧
    (Logger.init ctx2 v2 e2 t2 (Logger.init ctx1 v1 e1 t1 s0).1).2 =
      Except.error SetLoggerError.alreadySet ∧
    (Logger.init ctx2 v2 e2 t2 (Logger.init ctx1 v1 e1 t1 s0).1).1.sink =
      (Logger.init ctx1 v1 e1 t1 s0).1.sink ∧
    (Logger.init ctx2 v2 e2 t2 (Logger.init ctx1 v1 e1 t1 s0).1).1.maxLevel =
      (Logger.new ctx2 v2 e2 t2).level := by
  simp [Logger.init, set_max_level, set_boxed_logger, h]

/-- Claim C1, witness for the amended theorem at a concrete pair of calls:
first Verbose from the Volta context, then Quiet from the Shim context. -/
theorem init_second_call_error_sink_kept_witness :
    (Logger.init LogContext.Volta LogVerbosity.Verbose none true
      (GlobalLogState.mk LevelFilter.Off none)).2 = Except.ok () ∧
    (Logger.init LogContext.Shim LogVerbosity.Quiet none true
      (Logger.init LogContext.Volta LogVerbosity.Verbose none true
        (GlobalLogState.mk LevelFilter.Off none)).1).2 =
      Except.error SetLoggerError.alreadySet ∧
    (Logger.init LogContext.Shim LogVerbosity.Quiet none true
      (Logger.init LogContext.Volta LogVerbosity.Verbose none true
        (GlobalLogState.mk LevelFilter.Off none)).1).1.sink =
      (Logger.init LogContext.Volta LogVerbosity.Verbose none true
        (GlobalLogState.mk LevelFilter.Off none)).1.sink ∧
    (Logger.init LogContext.Shim LogVerbosity.Quiet none true
      (Logger.init LogContext.Volta LogVerbosity.Verbose none true
        (GlobalLogState.mk LevelFilter.Off none)).1).1.maxLevel =
      (Logger.new LogContext.Shim LogVerbosity.Quiet none true).level :=
  init_second_call_error_sink_kept LogContext.Volta LogContext.Shim
    LogVerbosity.Verbose LogVerbosity.Quiet none none true true
    (GlobalLogState.mk LevelFilter.Off none) rfl

/-- Claim C2: with a terminal width available, `wrap_content` uses a global
`String::replace` of the prefix, so a verbatim occurrence of the prefix
inside the message body is removed as well: for the warning label and the
message "see warning: above" the returned body is " see  above", not the
" see warning: above" that stripping only the leading occurrence (the
behaviour the claim and the spec state as intended) would give. -/
theorem wrap_content_strips_inner_occurrence_too :
    wrap_content (some 100) "warning:" "see warning: above" = " see  above" ∧
    " see  above" ≠ " see warning: above" :=
  ⟨by decide, by decide⟩

/-- Claim C3: a record is rendered (Logger::log produces output) exactly
when its level passes `enabled` (level at or above the stored threshold in
the severity ordering) and its target starts with the reserved namespace
ALLOWED_PREFIX; in particular a record whose target does not start with it
is never rendered, for any threshold and severity. -/
theorem log_renders_iff_enabled_and_target_allowed (lg : Logger) (st : Style)
    (w : Option Nat) (lvl : Level) (target msg : String) :
    (lg.log st w lvl target msg).isSome =
      (lg.enabled lvl && strStartsWith target ALLOWED_NS) := by
  cases hc : lg.enabled lvl && strStartsWith target ALLOWED_NS <;>
    simp [Logger.log, hc]

/-- Claim C4: for each recognized token of VOLTA_LOGLEVEL, resolving the
Default verbosity yields exactly the corresponding threshold, for every
context and independently of the TTY state. -/
theorem resolve_default_recognized_env_tokens (ctx : LogContext) (tty : Bool) :
    (Logger.new ctx LogVerbosity.Default (some "off") tty).level = LevelFilter.Off ∧
    (Logger.new ctx LogVerbosity.Default (some "error") tty).level = LevelFilter.Error ∧
    (Logger.new ctx LogVerbosity.Default (some "warn") tty).level = LevelFilter.Warn ∧
    (Logger.new ctx LogVerbosity.Default (some "info") tty).level = LevelFilter.Info ∧
    (Logger.new ctx LogVerbosity.Default (some "debug") tty).level = LevelFilter.Debug ∧
    (Logger.new ctx LogVerbosity.Default (some "trace") tty).level = LevelFilter.Trace :=
  ⟨rfl, rfl, rfl, rfl, rfl, rfl⟩

/-- Claim C5: when VOLTA_LOGLEVEL is unset or set to a value different from
every recognized token, resolving the Default verbosity yields Info when
stdout is a TTY and Error when it is not; resolution is a total function,
so it never fails. -/
theorem resolve_default_fallback_tty (ctx : LogContext) (tty : Bool)
    (v : Option String)
    (h : ∀ t ∈ ["off", "error", "warn", "info", "debug", "trace"], v ≠ some t) :
    (Logger.new ctx LogVerbosity.Default v tty).level =
      if tty then LevelFilter.Info else LevelFilter.Error := by
  cases v with
  | none => rfl
  | some s =>
    have h1 : ¬ s = "off" := fun g => h "off" (by simp) (by rw [g])
    have h2 : ¬ s = "error" := fun g => h "error" (by simp) (by rw [g])
    have h3 : ¬ s = "warn" := fun g => h "warn" (by simp) (by rw [g])
    have h4 : ¬ s = "info" := fun g => h "info" (by simp) (by rw [g])
    have h5 : ¬ s = "debug" := fun g => h "debug" (by simp) (by rw [g])
    have h6 : ¬ s = "trace" := fun g => h "trace" (by simp) (by rw [g])
    simp [Logger.new, level_from_env, h1, h2, h3, h4, h5, h6]

/-- Claim C5, witness: the unrecognized value "chatty" with a
non-interactive stdout resolves to the Error threshold. -/
theorem resolve_default_fallback_tty_witness :
    (Logger.new LogContext.Volta LogVerbosity.Default (some "chatty") false).level =
      if false then LevelFilter.Info else LevelFilter.Error :=
  resolve_default_fallback_tty LogContext.Volta false (some "chatty") (by decide)

/-- Claim C6: resolving Quiet always yields the Error threshold and
resolving Verbose always yields the Debug threshold, for every context,
environment value and TTY state. -/
theorem resolve_quiet_error_verbose_debug (ctx : LogContext)
    (env : Option String) (tty : Bool) :
    (Logger.new ctx LogVerbosity.Quiet env tty).level = LevelFilter.Error ∧
    (Logger.new ctx LogVerbosity.Verbose env tty).level = LevelFilter.Debug :=
  ⟨rfl, rfl⟩

/-- Claim C7: eligibility is monotonic in severity: if S1 passes `enabled`
at threshold T and S2 is at least as severe as S1 (smaller or equal value
in the log crate's ordering), then S2 passes `enabled` at T as well. -/
theorem enabled_monotone_in_severity (ctx : LogContext) (T : LevelFilter)
    (S1 S2 : Level) (h1 : (Logger.mk ctx T).enabled S1 = true)
    (h2 : Level.toNat S2 ≤ Level.toNat S1) :
    (Logger.mk ctx T).enabled S2 = true := by
  simp only [Logger.enabled, decide_eq_true_eq] at *
  omega

/-- Claim C7, witness: Warn is eligible at threshold Warn, and Error, being
at least as severe, is eligible there too. -/
theorem enabled_monotone_in_severity_witness :
    (Logger.mk LogContext.Volta LevelFilter.Warn).enabled Level.Error = true :=
  enabled_monotone_in_severity LogContext.Volta LevelFilter.Warn Level.Warn
    Level.Error (by decide) (by decide)

/-- Claim C8: every eligible Error-level record is written to stderr as the
red/bold-styled label, one space, and the unmodified message, with no
wrapping; the label literal is "error:" in the Volta (Primary) context and
"Volta error:" in the Shim (Alias) context. -/
theorem error_event_rendering (ctx : LogContext) (f : LevelFilter) (st : Style)
    (w : Option Nat) (target msg : String)
    (h1 : (Logger.mk ctx f).enabled Level.Error = true)
    (h2 : strStartsWith target ALLOWED_NS = true) :
    (Logger.mk ctx f).log st w Level.Error target msg =
      some (OutStream.stderr,
        st.red_bold (match ctx with
          | LogContext.Volta => ERROR_LABEL
          | LogContext.Shim => SHIM_ERROR_LABEL) ++ " " ++ msg) ∧
    ERROR_LABEL = "error:" ∧ SHIM_ERROR_LABEL = "Volta error:" := by
  refine ⟨?_, rfl, rfl⟩
  cases ctx <;> simp [Logger.log, Logger.log_error, h1, h2]

/-- Claim C8, witness: the Shim context at threshold Error renders the
message "disk full" to stderr behind the styled "Volta error:" label. -/
theorem error_event_rendering_witness :
    (Logger.mk LogContext.Shim LevelFilter.Error).log plainStyle none Level.Error
      "volta" "disk full" =
      some (OutStream.stderr,
        plainStyle.red_bold SHIM_ERROR_LABEL ++ " " ++ "disk full") ∧
    ERROR_LABEL = "error:" ∧ SHIM_ERROR_LABEL = "Volta error:" :=
  error_event_rendering LogContext.Shim LevelFilter.Error plainStyle none
    "volta" "disk full" (by decide) (by decide)

/-- Claim C9: with no terminal width available, every eligible Warn-level
record is written to stdout as the yellow/bold-styled label immediately
followed by a single space and the unmodified message, with no line breaks
inserted, whatever the message length. -/
theorem warn_event_rendering_no_width (ctx : LogContext) (f : LevelFilter)
    (st : Style) (target msg : String)
    (h1 : (Logger.mk ctx f).enabled Level.Warn = true)
    (h2 : strStartsWith target ALLOWED_NS = true) :
    (Logger.mk ctx f).log st none Level.Warn target msg =
      some (OutStream.stdout,
        st.yellow_bold (match ctx with
          | LogContext.Volta => WARNING_LABEL
          | LogContext.Shim => SHIM_WARNING_LABEL) ++ " " ++ msg) := by
  cases ctx <;>
    simp [Logger.log, Logger.log_warning, wrap_content, h1, h2, String.append_assoc]

/-- Claim C9, witness: a 500-character message in the Volta context renders
unwrapped behind the styled "warning:" label and a single space. -/
theorem warn_event_rendering_no_width_witness :
    (Logger.mk LogContext.Volta LevelFilter.Warn).log plainStyle none Level.Warn
      "volta" longMessage =
      some (OutStream.stdout,
        plainStyle.yellow_bold WARNING_LABEL ++ " " ++ longMessage) :=
  warn_event_rendering_no_width LogContext.Volta LevelFilter.Warn plainStyle
    "volta" longMessage (by decide) (by decide)

/-- Claim C10: resolving the Default verbosity with VOLTA_LOGLEVEL set to
"off" yields the Off threshold, and at that threshold no record of any
severity is rendered, Error-level records included. -/
theorem threshold_off_renders_nothing (ctx : LogContext) (tty : Bool)
    (st : Style) (w : Option Nat) (lvl : Level) (target msg : String) :
    (Logger.new ctx LogVerbosity.Default (some "off") tty).level = LevelFilter.Off ∧
    (Logger.new ctx LogVerbosity.Default (some "off") tty).log st w lvl target msg =
      none := by
  refine ⟨rfl, ?_⟩
  cases lvl <;>
    simp [Logger.log, Logger.enabled, Logger.new, level_from_env, Level.toNat,
      LevelFilter.toNat]

end VoltaLog
